import Mathlib

/-!
Verification of the environment-management / file-sync subsystem of the
`codeit` repository (`python/docker_manager.py`, `python/learn_python.py`),
via a shallow embedding.  External `docker` CLI behaviour is modelled by an
oracle configuration (`Cfg`) plus a mutable world (`World`); each Python
method is translated into a Lean function over that state.
-/

set_option maxHeartbeats 1000000

namespace Codeit

/-- Characters of `p` are a leading segment of `s` (Python `startswith`, on
character lists). -/
def listPre : List Char → List Char → Bool
  | [], _ => true
  | _ :: _, [] => false
  | a :: p, b :: s => a == b && listPre p s

/-- Python `t in s` substring test, over character lists. -/
def listSub (t : List Char) : List Char → Bool
  | [] => listPre t []
  | c :: rest => listPre t (c :: rest) || listSub t rest

/-- Python `s.startswith(p)`. -/
def strStartsWith (p s : String) : Bool := listPre p.data s.data

/-- Python `t in s` for strings. -/
def strContainsStr (t s : String) : Bool := listSub t.data s.data

/-- Python `s.endswith(t)` (used to model `find -name '*.ext'`). -/
def strEndsWith (t s : String) : Bool := listPre t.data.reverse s.data.reverse

/-- Python `s[n:]` (drop the first `n` characters). -/
def dropChars (n : Nat) (s : String) : String := ⟨s.data.drop n⟩

/-- Python `" " in part` (space test used when quoting command parts). -/
def hasSpaceChar (s : String) : Bool := s.data.any (fun c => c == ' ')

/-- A file system as an association list from path to file content
(first match wins; `fsSet` updates in place or appends). -/
abbrev FS := List (String × String)

/-- Look up a file's content. -/
def fsGet (h : FS) (k : String) : Option String :=
  (h.find? (fun e => e.1 == k)).map (fun e => e.2)

/-- Write a file: overwrite the first entry with that path, else append. -/
def fsSet : FS → String → String → FS
  | [], k, v => [(k, v)]
  | e :: rest, k, v => if e.1 == k then (k, v) :: rest else e :: fsSet rest k v

theorem fsGet_fsSet_self (h : FS) (k v : String) :
    fsGet (fsSet h k v) k = some v := by
  induction h with
  | nil => simp [fsSet, fsGet, List.find?]
  | cons e rest ih =>
    by_cases hk : e.1 == k
    · simp [fsSet, hk, fsGet, List.find?]
    · simp only [fsSet, hk, if_false, Bool.false_eq_true]
      simpa [fsGet, List.find?, hk] using ih

theorem fsGet_fsSet_ne (h : FS) (k v : String) (k' : String) (hne : k' ≠ k) :
    fsGet (fsSet h k v) k' = fsGet h k' := by
  have hkk : (k == k') = false := by
    simp only [beq_eq_false_iff_ne]
    exact fun hc => hne hc.symm
  induction h with
  | nil => simp [fsSet, fsGet, List.find?, hkk]
  | cons e rest ih =>
    by_cases hk : e.1 == k
    · have he : e.1 = k := by simpa using hk
      have he' : (e.1 == k') = false := by
        simp only [beq_eq_false_iff_ne, he]
        exact fun hc => hne hc.symm
      simp [fsSet, hk, fsGet, List.find?, hkk, he']
    · simp only [fsSet, hk, if_false, Bool.false_eq_true]
      by_cases hk' : e.1 == k'
      · simp [fsGet, List.find?, hk']
      · simpa [fsGet, List.find?, hk'] using ih

/-! ## The pull (`sync_from_container`) file-selection model

From `DockerEnvironmentManager.sync_from_container`
(`python/docker_manager.py`, lines 494-572).  `find` output parsing and the
`docker cp` transport are abstracted: the scan returns the matching
(path, content) pairs directly and each attempted copy succeeds. -/

/-- The fixed allow-list of extensions (the `patterns` list, line 506). -/
def pullPatterns : List String :=
  [".py", ".txt", ".md", ".json", ".csv",
   ".png", ".jpg", ".jpeg", ".gif", ".svg",
   ".html", ".pdf"]

/-- The fixed deny-list of path substrings (line 535). -/
def denyList : List String := [".git/", "__pycache__/", ".pyc", "/tmp/", "/opt/conda/"]

/-- `any(skip in file_path for skip in [...])` (line 535). -/
def denyHit (p : String) : Bool := denyList.any (fun d => strContainsStr d p)

/-- The `files_found` list: one `find /workspace -name '*ext' -type f` pass
per pattern, concatenated (lines 512-520). -/
def foundFiles (c : FS) : FS :=
  (pullPatterns.map (fun pat => c.filter (fun f => strEndsWith pat f.1))).flatten

/-- A found file is processed iff it is under `/workspace/` (line 531) and no
deny-list substring occurs in its path (line 535). -/
def keepFile (p : String) : Bool := strStartsWith "/workspace/" p && !denyHit p

/-- `file_path[11:]`: path relative to `/workspace/` (line 539). -/
def relOf (p : String) : String := dropChars 11 p

/-- Accumulator of one pull pass: host files, printed "new file" relative
paths, and the container paths actually copied. -/
structure PullState where
  host : FS
  notices : List String
  copied : List String

/-- Body of the `for file_path in files_found` loop (lines 529-564): skip
non-workspace and deny-listed paths, record whether the destination is new,
copy (overwriting), and note new files. -/
def pullStep (st : PullState) (f : String × String) : PullState :=
  if keepFile f.1 then
    let rel := relOf f.1
    let isNew := (fsGet st.host rel).isNone
    { host := fsSet st.host rel f.2
      notices := if isNew then st.notices ++ [rel] else st.notices
      copied := st.copied ++ [f.1] }
  else st

/-- One full pull pass over a container file set, starting from a host file
system. -/
def pullRun (c : FS) (host : FS) : PullState :=
  (foundFiles c).foldl pullStep ⟨host, [], []⟩

/-! ### Structural lemmas about a pull pass -/

/-- The host-file effect of processing one found file. -/
def writeStep (h : FS) (f : String × String) : FS :=
  if keepFile f.1 then fsSet h (relOf f.1) f.2 else h

/-- The host-file effect of a whole pass. -/
def applyW (l : FS) (h : FS) : FS := l.foldl writeStep h

/-- Host paths written by a pass over the found files `l`. -/
def keysOf : FS → List String
  | [] => []
  | f :: t => if keepFile f.1 then relOf f.1 :: keysOf t else keysOf t

theorem pullFold_host (l : FS) : ∀ (h : FS) (n c : List String),
    (l.foldl pullStep ⟨h, n, c⟩).host = applyW l h := by
  induction l with
  | nil => intro h n c; rfl
  | cons f t ih =>
    intro h n c
    by_cases hk : keepFile f.1
    · simp only [List.foldl_cons, pullStep, hk, if_true, applyW, writeStep]
      exact ih _ _ _
    · simp only [List.foldl_cons, pullStep, hk, if_false, Bool.false_eq_true, applyW, writeStep]
      exact ih _ _ _

theorem applyW_cons_keep (f : String × String) (t : FS) (h : FS)
    (hk : keepFile f.1 = true) :
    applyW (f :: t) h = applyW t (fsSet h (relOf f.1) f.2) := by
  simp [applyW, writeStep, hk]

theorem applyW_cons_skip (f : String × String) (t : FS) (h : FS)
    (hk : ¬ keepFile f.1 = true) :
    applyW (f :: t) h = applyW t h := by
  simp [applyW, writeStep, hk]

theorem applyW_nokey (l : FS) : ∀ (h : FS) (x : String), x ∉ keysOf l →
    fsGet (applyW l h) x = fsGet h x := by
  induction l with
  | nil => intro h x _; rfl
  | cons f t ih =>
    intro h x hx
    by_cases hk : keepFile f.1
    · have hx1 : x ≠ relOf f.1 := fun he => hx (by simp [keysOf, hk, he])
      have hx2 : x ∉ keysOf t := fun hm => hx (by simp [keysOf, hk, hm])
      rw [applyW_cons_keep f t h hk, ih _ _ hx2, fsGet_fsSet_ne _ _ _ _ hx1]
    · have hx2 : x ∉ keysOf t := fun hm => hx (by simp [keysOf, hk, hm])
      rw [applyW_cons_skip f t h hk, ih _ _ hx2]

theorem applyW_override (l : FS) : ∀ (h₁ h₂ : FS) (x : String), x ∈ keysOf l →
    fsGet (applyW l h₁) x = fsGet (applyW l h₂) x := by
  induction l with
  | nil => intro h₁ h₂ x hx; simp [keysOf] at hx
  | cons f t ih =>
    intro h₁ h₂ x hx
    by_cases hk : keepFile f.1
    · rw [applyW_cons_keep f t h₁ hk, applyW_cons_keep f t h₂ hk]
      by_cases hxt : x ∈ keysOf t
      · exact ih _ _ _ hxt
      · have hx1 : x = relOf f.1 := by
          rcases (by simpa [keysOf, hk] using hx : x = relOf f.1 ∨ x ∈ keysOf t) with h | h
          · exact h
          · exact absurd h hxt
        rw [applyW_nokey t _ x hxt, applyW_nokey t _ x hxt, hx1,
            fsGet_fsSet_self, fsGet_fsSet_self]
    · have hxt : x ∈ keysOf t := by simpa [keysOf, hk] using hx
      rw [applyW_cons_skip f t h₁ hk, applyW_cons_skip f t h₂ hk]
      exact ih _ _ _ hxt

theorem applyW_somekey (l : FS) : ∀ (h : FS) (x : String), x ∈ keysOf l →
    (fsGet (applyW l h) x).isSome = true := by
  induction l with
  | nil => intro h x hx; simp [keysOf] at hx
  | cons f t ih =>
    intro h x hx
    by_cases hk : keepFile f.1
    · rw [applyW_cons_keep f t h hk]
      by_cases hxt : x ∈ keysOf t
      · exact ih _ _ hxt
      · have hx1 : x = relOf f.1 := by
          rcases (by simpa [keysOf, hk] using hx : x = relOf f.1 ∨ x ∈ keysOf t) with h | h
          · exact h
          · exact absurd h hxt
        rw [applyW_nokey t _ x hxt, hx1, fsGet_fsSet_self]
        rfl
    · have hxt : x ∈ keysOf t := by simpa [keysOf, hk] using hx
      rw [applyW_cons_skip f t h hk]
      exact ih _ _ hxt

theorem mem_keysOf (l : FS) : ∀ f ∈ l, keepFile f.1 = true → relOf f.1 ∈ keysOf l := by
  induction l with
  | nil => intro f hf; simp at hf
  | cons g t ih =>
    intro f hf hk
    rcases List.mem_cons.mp hf with hf | hf
    · subst hf; simp [keysOf, hk]
    · by_cases hg : keepFile g.1
      · simp only [keysOf, hg, if_true]
        exact List.mem_cons_of_mem _ (ih f hf hk)
      · simp only [keysOf, hg, if_false, Bool.false_eq_true]
        exact ih f hf hk

theorem pullFold_no_new (l : FS) : ∀ (h : FS) (n c : List String),
    (∀ f ∈ l, keepFile f.1 = true → (fsGet h (relOf f.1)).isSome = true) →
    (l.foldl pullStep ⟨h, n, c⟩).notices = n := by
  induction l with
  | nil => intro h n c _; rfl
  | cons f t ih =>
    intro h n c hall
    by_cases hk : keepFile f.1
    · have hsome : (fsGet h (relOf f.1)).isSome = true :=
        hall f (List.mem_cons_self _ _) hk
      have hnotnew : (fsGet h (relOf f.1)).isNone = false := by
        cases hv : fsGet h (relOf f.1) with
        | none => rw [hv] at hsome; simp at hsome
        | some v => rfl
      simp only [List.foldl_cons, pullStep, hk, if_true, hnotnew, Bool.false_eq_true,
        if_false]
      apply ih
      intro f' hf' hk'
      by_cases heq : relOf f'.1 = relOf f.1
      · rw [heq, fsGet_fsSet_self]; rfl
      · rw [fsGet_fsSet_ne _ _ _ _ heq]
        exact hall f' (List.mem_cons_of_mem _ hf') hk'
    · simp only [List.foldl_cons, pullStep, hk, if_false, Bool.false_eq_true]
      apply ih
      intro f' hf' hk'
      exact hall f' (List.mem_cons_of_mem _ hf') hk'

/-- Core idempotence of one pull pass: rerunning the pass on an unchanged
container leaves every host file unchanged and flags no file as new. -/
theorem pullRun_idem (c h : FS) :
    (∀ x, fsGet (pullRun c (pullRun c h).host).host x = fsGet (pullRun c h).host x) ∧
    (pullRun c (pullRun c h).host).notices = [] := by
  have h1 : (pullRun c h).host = applyW (foundFiles c) h := pullFold_host _ _ _ _
  have h2 : (pullRun c (pullRun c h).host).host
      = applyW (foundFiles c) ((pullRun c h).host) := pullFold_host _ _ _ _
  constructor
  · intro x
    rw [h2, h1]
    by_cases hx : x ∈ keysOf (foundFiles c)
    · exact applyW_override _ _ _ _ hx
    · rw [applyW_nokey _ _ _ hx]
  · have : ∀ f ∈ foundFiles c, keepFile f.1 = true →
        (fsGet ((pullRun c h).host) (relOf f.1)).isSome = true := by
      intro f hf hk
      rw [h1]
      exact applyW_somekey _ _ _ (mem_keysOf _ f hf hk)
    exact pullFold_no_new _ _ _ _ this

theorem pullFold_deny (l : FS) : ∀ (st : PullState) (p : String),
    denyHit p = true → p ∉ st.copied → p ∉ (l.foldl pullStep st).copied := by
  induction l with
  | nil => intro st p _ hp; exact hp
  | cons f t ih =>
    intro st p hd hp
    by_cases hk : keepFile f.1
    · simp only [List.foldl_cons, pullStep, hk, if_true]
      apply ih _ _ hd
      intro hmem
      rcases List.mem_append.mp hmem with hmem | hmem
      · exact hp hmem
      · have hpf : p = f.1 := by simpa using hmem
        have hnd : denyHit f.1 = false := by
          have h' := hk
          unfold keepFile at h'
          simp only [Bool.and_eq_true, Bool.not_eq_true'] at h'
          exact h'.2
        rw [hpf, hnd] at hd
        exact absurd hd (by simp)
    · simp only [List.foldl_cons, pullStep, hk, if_false, Bool.false_eq_true]
      exact ih _ _ hd hp

/-- Core deny-list property: a path containing a denied substring is never
among the container paths copied by a pull pass. -/
theorem pullRun_deny (c h : FS) (p : String) (hd : denyHit p = true) :
    p ∉ (pullRun c h).copied := by
  apply pullFold_deny _ _ _ hd
  simp

/-! ## Docker oracle and world state

The `docker` CLI is modelled by an immutable oracle (`Cfg`) plus a mutable
world (`World`).  Each `_run_docker_command` invocation either launches (the
binary is present) or raises `FileNotFoundError`; once launched, results are
deterministic functions of the world, with the outcomes of `docker
create`/`start`/`build` and of user commands drawn from oracle streams. -/

/-- Trace events recording which external operations the manager invoked. -/
inductive Ev
  | push                                   -- sync_to_container copy
  | pull (quiet : Bool)                    -- sync_from_container pass
  | execCmd (cmd : String) (inter : Bool)  -- docker exec of a user command
  | createEv                               -- docker create
  | removeEv                               -- docker rm (-f)
  | startEv                                -- docker start
  | restartEv                              -- restart_container invocation (self-heal)
  | buildEv                                -- docker build
  | rmiEv                                  -- docker rmi
  | stopEv                                 -- docker stop
  | retryEv                                -- run_command_in_container "result is None" retry
deriving DecidableEq

/-- Immutable oracle: host identity plus the outcomes docker produces for
successive create/start/build attempts and user commands.  `hostRunOk`
abstracts `run_function_directly` (out-of-sandbox host execution). -/
structure Cfg where
  dockerInstalled : Bool
  daemonUp : Bool
  uid : Nat
  gid : Nat
  startFun : Nat → Bool × Bool
  createFun : Nat → Bool
  buildFun : Nat → Bool
  execRcFun : Nat → Int
  hostRunOk : Bool

/-- The container, when it exists.  `user` is the recorded
`{{.Config.User}}` mapping; `healthy` is whether the in-container
responsiveness probe command succeeds. -/
structure Container where
  id : Nat
  user : String
  running : Bool
  healthy : Bool
deriving DecidableEq

structure World where
  imageExists : Bool
  cont : Option Container
  copyMode : Bool
  hostFiles : FS
  containerFiles : FS
  nextId : Nat
  startIdx : Nat
  createIdx : Nat
  buildIdx : Nat
  execIdx : Nat
  trace : List Ev
  newFileNotices : List String
  copiedFiles : List String

/-- Python `f"{uid}:{gid}"`. -/
def userStr (cfg : Cfg) : String := toString cfg.uid ++ ":" ++ toString cfg.gid

/-- A captured command result (`CompletedProcess`/`CalledProcessError`: both
carry a return code). -/
structure DockerResult where
  returncode : Int
  stdout : String
deriving DecidableEq

/-- Append one event to the world's trace. -/
def evLog (w : World) (e : Ev) : World := {w with trace := w.trace ++ [e]}

/-! ### Probes (`docker_manager.py` lines 52-83), value level.
Each probe is a pure read of the world: a `docker ps`/`images` listing is
nonempty exactly when the daemon is up and the resource exists, and the
responsiveness `docker exec` probe succeeds exactly when the container is
running and healthy. -/

def isDockerAvailableP (cfg : Cfg) : Bool := cfg.daemonUp

def imageExistsP (cfg : Cfg) (w : World) : Bool := cfg.daemonUp && w.imageExists

def containerExistsP (cfg : Cfg) (w : World) : Bool := cfg.daemonUp && w.cont.isSome

def isContainerRunningP (cfg : Cfg) (w : World) : Bool :=
  match w.cont with
  | none => false
  | some c => cfg.daemonUp && c.running && c.healthy

/-- `docker inspect --format {{.Config.User}}` stdout (stripped): the
recorded user of the existing container, `""` on failure. -/
def inspectUserP (cfg : Cfg) (w : World) : String :=
  match w.cont with
  | some c => if cfg.daemonUp then c.user else ""
  | none => ""

/-! ### Probes with the launch barrier.  `_run_docker_command` catches only
`CalledProcessError`; if the `docker` binary itself cannot be launched,
`subprocess.run` raises (e.g. `FileNotFoundError`) and the exception
propagates out of the probe (modelled as `Except.error`). -/

def isDockerAvailableE (cfg : Cfg) (w : World) : Except Unit Bool :=
  if cfg.dockerInstalled then .ok (isDockerAvailableP cfg) else .error ()

def imageExistsE (cfg : Cfg) (w : World) : Except Unit Bool :=
  if cfg.dockerInstalled then .ok (imageExistsP cfg w) else .error ()

def containerExistsE (cfg : Cfg) (w : World) : Except Unit Bool :=
  if cfg.dockerInstalled then .ok (containerExistsP cfg w) else .error ()

def isContainerRunningE (cfg : Cfg) (w : World) : Except Unit Bool :=
  if cfg.dockerInstalled then .ok (isContainerRunningP cfg w) else .error ()

/-! ### State-changing docker primitives.  From here on the model assumes
the binary launches (`_run_docker_command` then never returns `None`: it
returns the completed result or the caught `CalledProcessError`). -/

/-- `docker rm -f <name>` (and `docker rm`): destroy the container. -/
def dockerRmForce (cfg : Cfg) (w : World) : World :=
  let w := evLog w .removeEv
  if cfg.daemonUp then {w with cont := none} else w

/-- `docker create ... --user uid:gid ... <image>`: succeeds when the daemon
is up, the image exists, the name is free and the oracle allows it; the new
container records the current uid:gid mapping and is not yet running. -/
def dockerCreate (cfg : Cfg) (w : World) : World :=
  let w := evLog w .createEv
  if cfg.daemonUp && w.imageExists && w.cont.isNone && cfg.createFun w.createIdx then
    {w with cont := some ⟨w.nextId, userStr cfg, false, false⟩,
            nextId := w.nextId + 1, createIdx := w.createIdx + 1}
  else {w with createIdx := w.createIdx + 1}

/-- `docker start <name>`: the started container's running/responsive state
is drawn from the oracle stream. -/
def dockerStart (cfg : Cfg) (w : World) : World :=
  let w := evLog w .startEv
  match w.cont with
  | some c =>
    if cfg.daemonUp then
      {w with cont := some {c with running := (cfg.startFun w.startIdx).1,
                                   healthy := (cfg.startFun w.startIdx).2},
              startIdx := w.startIdx + 1}
    else {w with startIdx := w.startIdx + 1}
  | none => {w with startIdx := w.startIdx + 1}

/-- `docker stop <name>`. -/
def dockerStop (cfg : Cfg) (w : World) : World :=
  let w := evLog w .stopEv
  match w.cont with
  | some c => if cfg.daemonUp then {w with cont := some {c with running := false}} else w
  | none => w

/-- `docker build -t <image> ...`. -/
def dockerBuild (cfg : Cfg) (w : World) : World :=
  let w := evLog w .buildEv
  if cfg.daemonUp && cfg.buildFun w.buildIdx then
    {w with imageExists := true, buildIdx := w.buildIdx + 1}
  else {w with buildIdx := w.buildIdx + 1}

/-- `docker rmi <image>`. -/
def dockerRmi (cfg : Cfg) (w : World) : World :=
  let w := evLog w .rmiEv
  if cfg.daemonUp then {w with imageExists := false} else w

/-- `docker exec [-it] <name> /opt/conda/activate_env.sh bash -c <cmd>`:
when the container can run it, the command's exit code comes from the
oracle; otherwise docker itself fails with a nonzero exit. -/
def dockerExec (cfg : Cfg) (cmd : String) (inter : Bool) (w : World) :
    DockerResult × World :=
  let w := evLog w (.execCmd cmd inter)
  match w.cont with
  | some c =>
    if cfg.daemonUp && c.running && c.healthy then
      (⟨cfg.execRcFun w.execIdx, ""⟩, {w with execIdx := w.execIdx + 1})
    else (⟨1, ""⟩, {w with execIdx := w.execIdx + 1})
  | none => (⟨1, ""⟩, {w with execIdx := w.execIdx + 1})

/-! ## Manager lifecycle methods (`docker_manager.py`), assuming the docker
binary launches.  Note the source quirk: `_run_docker_command` never returns
`None` once the binary launches (it returns the caught `CalledProcessError`
on failure), so every `result is not None` in the source is `true`. -/

/-- `create_container` (lines 100-135): reuse the existing container only
when its recorded user mapping equals the current `uid:gid`; otherwise
`docker rm -f` it and create afresh.  Returns `result is not None`, which
is always `True`. -/
def createContainerC (cfg : Cfg) (w : World) : Bool × World :=
  if containerExistsP cfg w then
    if inspectUserP cfg w == userStr cfg then
      (true, w)
    else
      (true, dockerCreate cfg (dockerRmForce cfg w))
  else
    (true, dockerCreate cfg w)

/-- The world on which `restart_container` runs `docker create`: after
logging the self-heal and force-removing any existing container. -/
def restartPre (cfg : Cfg) (w : World) : World :=
  if containerExistsP cfg (evLog w .restartEv)
  then dockerRmForce cfg (evLog w .restartEv)
  else evLog w .restartEv

/-- `restart_container` (lines 213-228): remove the problematic container,
create and start fresh, and report the responsiveness probe's verdict. -/
def restartContainerC (cfg : Cfg) (w : World) : Bool × World :=
  if (createContainerC cfg (restartPre cfg w)).1 then
    (isContainerRunningP cfg (dockerStart cfg (createContainerC cfg (restartPre cfg w)).2),
     dockerStart cfg (createContainerC cfg (restartPre cfg w)).2)
  else (false, (createContainerC cfg (restartPre cfg w)).2)

/-- The create-if-absent step of `start_container` (lines 195-197). -/
def startCreateStep (cfg : Cfg) (w : World) : Bool × World :=
  if !containerExistsP cfg w then createContainerC cfg w else (true, w)

/-- `start_container` (lines 190-211): short-circuit when already
responsive; create if absent; `docker start`; re-probe, self-healing via
`restart_container` if the started container is unresponsive. -/
def startContainerC (cfg : Cfg) (w : World) : Bool × World :=
  if isContainerRunningP cfg w then (true, w)
  else if !(startCreateStep cfg w).1 then (false, (startCreateStep cfg w).2)
  else if !isContainerRunningP cfg (dockerStart cfg (startCreateStep cfg w).2) then
    restartContainerC cfg (dockerStart cfg (startCreateStep cfg w).2)
  else (true, dockerStart cfg (startCreateStep cfg w).2)

/-- `stop_container` (lines 230-237). -/
def stopContainerC (cfg : Cfg) (w : World) : Bool × World :=
  if !isContainerRunningP cfg w then (true, w)
  else (true, dockerStop cfg w)

/-- The stop-if-running step of `remove_container` (lines 241-242). -/
def removeStopStep (cfg : Cfg) (w : World) : World :=
  if isContainerRunningP cfg w then (stopContainerC cfg w).2 else w

/-- `remove_container` (lines 239-248). -/
def removeContainerC (cfg : Cfg) (w : World) : Bool × World :=
  if containerExistsP cfg (removeStopStep cfg w) then
    (true, dockerRmForce cfg (removeStopStep cfg w))
  else (true, removeStopStep cfg w)

/-- `build_image` (lines 85-98): returns `result is not None` (always
`True` once the binary launches, even if the build failed). -/
def buildImageC (cfg : Cfg) (w : World) : Bool × World :=
  (true, dockerBuild cfg w)

/-- The container-teardown part of the rebuild branch of
`setup_environment` (lines 385-390). -/
def rebuildContTeardown (cfg : Cfg) (w : World) : World :=
  if containerExistsP cfg w then
    (removeContainerC cfg
      (if isContainerRunningP cfg w then (stopContainerC cfg w).2 else w)).2
  else w

/-- The full rebuild teardown (lines 382-399): remove container then image. -/
def rebuildTeardown (cfg : Cfg) (w : World) : World :=
  if imageExistsP cfg (rebuildContTeardown cfg w) then
    dockerRmi cfg (rebuildContTeardown cfg w)
  else rebuildContTeardown cfg w

/-- The world `setup_environment` holds just before the build-if-missing
step: copy mode stored, optional rebuild teardown performed. -/
def setupPre (cfg : Cfg) (copyMode rebuild : Bool) (w : World) : World :=
  if rebuild then rebuildTeardown cfg {w with copyMode := copyMode}
  else {w with copyMode := copyMode}

/-- The build-if-missing step (lines 402-405). -/
def setupBuildStep (cfg : Cfg) (w : World) : Bool × World :=
  if !imageExistsP cfg w then buildImageC cfg w else (true, w)

/-- `setup_environment` (lines 371-415): availability check, optional
rebuild teardown, build-if-missing, then `start_container`. -/
def setupEnvironmentC (cfg : Cfg) (copyMode rebuild : Bool) (w : World) : Bool × World :=
  if !isDockerAvailableP cfg then (false, w)
  else if !(setupBuildStep cfg (setupPre cfg copyMode rebuild w)).1 then
    (false, (setupBuildStep cfg (setupPre cfg copyMode rebuild w)).2)
  else if !(startContainerC cfg (setupBuildStep cfg (setupPre cfg copyMode rebuild w)).2).1 then
    (false, (startContainerC cfg (setupBuildStep cfg (setupPre cfg copyMode rebuild w)).2).2)
  else (true, (startContainerC cfg (setupBuildStep cfg (setupPre cfg copyMode rebuild w)).2).2)

/-! ## File sync methods (`docker_manager.py` lines 469-572) -/

/-- `docker cp <root>/. <name>:/workspace/`: mirror every host file under
`/workspace/` in the container. -/
def pushMerge (host cf : FS) : FS :=
  host.foldl (fun acc e => fsSet acc ("/workspace/" ++ e.1) e.2) cf

/-- `sync_to_container` (push, lines 469-492): wholesale `docker cp` of the
project tree into `/workspace/`. -/
def syncToContainerC (cfg : Cfg) (w : World) : Bool × World :=
  if !w.copyMode then (true, w)
  else if !containerExistsP cfg w then (false, w)
  else
    (true, {evLog w Ev.push with
        containerFiles := pushMerge w.hostFiles w.containerFiles})

/-- `sync_from_container` (pull, lines 494-572): run one `pullRun` pass;
"new file" notices are printed only when not quiet. -/
def syncFromContainerC (cfg : Cfg) (quiet : Bool) (w : World) : Bool × World :=
  if !w.copyMode then (true, w)
  else if !containerExistsP cfg w then (false, w)
  else
    (true, {evLog w (Ev.pull quiet) with
        hostFiles := (pullRun w.containerFiles w.hostFiles).host,
        newFileNotices := w.newFileNotices ++
          (if quiet then [] else (pullRun w.containerFiles w.hostFiles).notices),
        copiedFiles := w.copiedFiles ++ (pullRun w.containerFiles w.hostFiles).copied})

/-! ## Dispatch (`docker_manager.py` lines 250-362) -/

/-- `run_command_in_container` (lines 250-279).  The `result is None`
restart-and-retry branch is kept verbatim; `retryEv` marks it being taken. -/
def runCommandInContainerC (cfg : Cfg) (cmd : String) (inter : Bool) (w : World) :
    Option DockerResult × World :=
  if !(startContainerC cfg w).1 then (none, (startContainerC cfg w).2)
  else if (some (dockerExec cfg cmd inter (startContainerC cfg w).2).1).isNone
          && !inter then
    if (restartContainerC cfg
        (evLog (dockerExec cfg cmd inter (startContainerC cfg w).2).2 .retryEv)).1 then
      (some (dockerExec cfg cmd inter
          (restartContainerC cfg
            (evLog (dockerExec cfg cmd inter (startContainerC cfg w).2).2 .retryEv)).2).1,
       (dockerExec cfg cmd inter
          (restartContainerC cfg
            (evLog (dockerExec cfg cmd inter (startContainerC cfg w).2).2 .retryEv)).2).2)
    else
      (none,
       (restartContainerC cfg
         (evLog (dockerExec cfg cmd inter (startContainerC cfg w).2).2 .retryEv)).2)
  else
    (some (dockerExec cfg cmd inter (startContainerC cfg w).2).1,
     (dockerExec cfg cmd inter (startContainerC cfg w).2).2)

/-- `run_interactive_with_sync` (lines 281-326), single-threaded view: the
foreground attach plus the final non-quiet sync in the `finally` block.  The
background periodic quiet syncs are modelled separately (see the session
interleaving model below). -/
def runInteractiveWithSyncC (cfg : Cfg) (cmd : String) (w : World) :
    Option DockerResult × World :=
  if !(startContainerC cfg w).1 then (none, (startContainerC cfg w).2)
  else
    (some (dockerExec cfg cmd true (startContainerC cfg w).2).1,
     (syncFromContainerC cfg false
       (dockerExec cfg cmd true (startContainerC cfg w).2).2).2)

/-- `Path(__file__).parent.parent` of `docker_manager.py`: the project
root, as an abstract absolute path. -/
def projectRoot : String := "/repo"

/-- Final path component (Python `Path(p).name`). -/
def baseName (p : String) : String :=
  ⟨(p.data.reverse.takeWhile (fun c => !(c == '/'))).reverse⟩

/-- `Path(script_path).relative_to(project_root)` with the `ValueError`
fallback to the bare filename (lines 337-341). -/
def relativeTo (root p : String) : String :=
  if strStartsWith (root ++ "/") p then dropChars (root.data.length + 1) p
  else baseName p

/-- Quote a command part iff it contains a space (line 346). -/
def quotePart (s : String) : String :=
  if hasSpaceChar s then "\"" ++ s ++ "\"" else s

/-- Python `" ".join(parts)`. -/
def joinSpace : List String → String
  | [] => ""
  | [x] => x
  | x :: xs => x ++ " " ++ joinSpace xs

/-- The command string built by `run_python_script` (lines 343-346). -/
def buildCmd (script : String) (args : List String) : String :=
  joinSpace ((["python", relativeTo projectRoot script] ++ args).map quotePart)

/-- `'--interactive' in args or '-i' in args` (line 349). -/
def isInterArgs (args : List String) : Bool :=
  args.contains "--interactive" || args.contains "-i"

/-- The push step of `run_python_script` (lines 330-334). -/
def scriptPushStep (cfg : Cfg) (w : World) : Bool × World :=
  if w.copyMode then syncToContainerC cfg w else (true, w)

/-- The dispatch step of `run_python_script` (lines 351-355). -/
def scriptDispatchStep (cfg : Cfg) (script : String) (args : List String)
    (copyMode : Bool) (w : World) : Option DockerResult × World :=
  if copyMode && isInterArgs args then
    runInteractiveWithSyncC cfg (buildCmd script args) w
  else runCommandInContainerC cfg (buildCmd script args) (isInterArgs args) w

/-- `run_python_script` (lines 328-362): push in copy mode, build the
command from the project-relative script path and args, dispatch
interactively or not, pull in copy mode after non-interactive runs. -/
def runPythonScriptC (cfg : Cfg) (script : String) (args : List String) (w : World) :
    Option DockerResult × World :=
  if w.copyMode && !(scriptPushStep cfg w).1 then (none, (scriptPushStep cfg w).2)
  else
    ((scriptDispatchStep cfg script args w.copyMode (scriptPushStep cfg w).2).1,
     if w.copyMode && !(isInterArgs args) then
       (syncFromContainerC cfg false
         (scriptDispatchStep cfg script args w.copyMode (scriptPushStep cfg w).2).2).2
     else (scriptDispatchStep cfg script args w.copyMode (scriptPushStep cfg w).2).2)

/-! ## The outer dispatcher (`learn_python.py`) -/

/-- `os.path.abspath(__file__)` for `learn_python.py`. -/
def scriptPath : String := projectRoot ++ "/python/learn_python.py"

/-- The argument list `run_in_managed_environment` reconstructs from the
session flags (lines 495-507). -/
def managerArgs (funcKey : String)
    (interactive stepMode docMode snipMode copyMode : Bool) : List String :=
  ["--functions", funcKey]
    ++ (if interactive then ["--interactive"] else [])
    ++ (if stepMode then ["--step"] else [])
    ++ (if docMode then ["--doc"] else [])
    ++ (if snipMode then ["--snip"] else [])
    ++ (if copyMode then ["--cm"] else [])

/-- `result is not None and result.returncode == 0` (line 510). -/
def resultOk : Option DockerResult → Bool
  | none => false
  | some res => res.returncode == 0

/-- `run_in_managed_environment` (lines 472-517): in the forced-Docker path,
set up the environment, run the script with the reconstructed flag list, and
collapse the result to `result is not None and result.returncode == 0`. -/
def runInManagedEnvironmentC (cfg : Cfg) (funcKey : String)
    (copyMode forceDocker noDocker interactive stepMode docMode snipMode : Bool)
    (w : World) : Bool × World :=
  if noDocker then (cfg.hostRunOk, w)
  else if forceDocker then
    if !(setupEnvironmentC cfg copyMode false w).1 then
      (false, (setupEnvironmentC cfg copyMode false w).2)
    else
      (resultOk (runPythonScriptC cfg scriptPath
          (managerArgs funcKey interactive stepMode docMode snipMode copyMode)
          (setupEnvironmentC cfg copyMode false w).2).1,
       (runPythonScriptC cfg scriptPath
          (managerArgs funcKey interactive stepMode docMode snipMode copyMode)
          (setupEnvironmentC cfg copyMode false w).2).2)
  else (cfg.hostRunOk, w)

/-- The per-module loop of `main` (lines 662-680): dispatch each requested
function in turn; a failed dispatch only prints and the loop continues; an
unknown function name returns early.  The returned `Nat` counts dispatches
performed. -/
def mainRunLoopC (cfg : Cfg) (known : List String)
    (copyMode forceDocker noDocker interactive stepMode docMode snipMode : Bool) :
    List String → World → Nat × World
  | [], w => (0, w)
  | f :: rest, w =>
    if known.contains f then
      let r := runInManagedEnvironmentC cfg f copyMode forceDocker noDocker
        interactive stepMode docMode snipMode w
      let r2 := mainRunLoopC cfg known copyMode forceDocker noDocker
        interactive stepMode docMode snipMode rest r.2
      (r2.1 + 1, r2.2)
    else (0, w)

/-! ## The command runner itself (`_run_docker_command`, lines 25-50) -/

/-- Outcome of the underlying `subprocess.run` call. -/
inductive SubprocOutcome
  | completed (rc : Int) (out : String)
  | calledProcessError (rc : Int) (out : String)
  | launchFailure
deriving DecidableEq

/-- `_run_docker_command`: returns the completed result, or the caught
`CalledProcessError` (which carries `.returncode`); a launch failure
(command not found) is not caught and propagates.  The Python variable can
in principle be `None`, hence the `Option` in the modelled return type. -/
def runDockerCommandM : SubprocOutcome → Except Unit (Option DockerResult)
  | .completed rc out => .ok (some ⟨rc, out⟩)
  | .calledProcessError rc out => .ok (some ⟨rc, out⟩)
  | .launchFailure => .error ()

/-! ## Lifecycle lemmas -/

theorem createContainerC_fst (cfg : Cfg) (w : World) :
    (createContainerC cfg w).1 = true := by
  unfold createContainerC
  split
  · split <;> rfl
  · rfl

theorem startCreateStep_fst (cfg : Cfg) (w : World) :
    (startCreateStep cfg w).1 = true := by
  unfold startCreateStep
  split
  · exact createContainerC_fst cfg w
  · rfl

/-- `restart_container` reports exactly the responsiveness probe of the
world it leaves behind. -/
theorem restartContainerC_spec (cfg : Cfg) (w : World) :
    (restartContainerC cfg w).1 =
      isContainerRunningP cfg (restartContainerC cfg w).2 := by
  unfold restartContainerC
  simp [createContainerC_fst]

/-- `start_container` returns `True` only when the responsiveness probe
holds of the world it leaves behind. -/
theorem startContainerC_true (cfg : Cfg) (w : World)
    (h : (startContainerC cfg w).1 = true) :
    isContainerRunningP cfg (startContainerC cfg w).2 = true := by
  by_cases h1 : isContainerRunningP cfg w = true
  · simp [startContainerC, h1]
  · have h1' : isContainerRunningP cfg w = false := by
      cases hv : isContainerRunningP cfg w
      · rfl
      · exact absurd hv h1
    by_cases h2 : isContainerRunningP cfg (dockerStart cfg (startCreateStep cfg w).2) = true
    · simp [startContainerC, h1', h2, startCreateStep_fst]
    · have h2' : isContainerRunningP cfg (dockerStart cfg (startCreateStep cfg w).2) = false := by
        cases hv : isContainerRunningP cfg (dockerStart cfg (startCreateStep cfg w).2)
        · rfl
        · exact absurd hv h2
      have hsp := restartContainerC_spec cfg (dockerStart cfg (startCreateStep cfg w).2)
      simp only [startContainerC, h1', h2', startCreateStep_fst, Bool.not_true,
        Bool.false_eq_true, if_false, Bool.not_false, if_true] at h ⊢
      rw [← hsp]
      exact h

theorem setupBuildStep_fst (cfg : Cfg) (w : World) :
    (setupBuildStep cfg w).1 = true := by
  unfold setupBuildStep buildImageC
  split <;> rfl

/-- `setup_environment` reports success only when the responsiveness probe
holds of the world it leaves behind. -/
theorem setupEnvironmentC_true (cfg : Cfg) (cm rb : Bool) (w : World)
    (h : (setupEnvironmentC cfg cm rb w).1 = true) :
    isContainerRunningP cfg (setupEnvironmentC cfg cm rb w).2 = true := by
  by_cases hA : isDockerAvailableP cfg = true
  · by_cases hS : (startContainerC cfg (setupBuildStep cfg (setupPre cfg cm rb w)).2).1 = true
    · simp [setupEnvironmentC, hA, setupBuildStep_fst, hS, startContainerC_true _ _ hS]
    · have hS' : (startContainerC cfg (setupBuildStep cfg (setupPre cfg cm rb w)).2).1 = false := by
        cases hv : (startContainerC cfg (setupBuildStep cfg (setupPre cfg cm rb w)).2).1
        · rfl
        · exact absurd hv hS
      simp [setupEnvironmentC, hA, setupBuildStep_fst, hS'] at h
  · have hA' : isDockerAvailableP cfg = false := by
      cases hv : isDockerAvailableP cfg
      · rfl
      · exact absurd hv hA
    simp [setupEnvironmentC, hA'] at h

/-- Sample oracle where docker behaves perfectly. -/
def cfgGood : Cfg :=
  ⟨true, true, 1000, 1000, fun _ => (true, true), fun _ => true, fun _ => true,
   fun _ => 0, true⟩

/-- A world with a matching, running, responsive container. -/
def worldReady : World :=
  ⟨true, some ⟨0, "1000:1000", true, true⟩, false, [], [], 1, 0, 0, 0, 0, [], [], []⟩

/-- C1: whenever `setup_environment` returns `True`, the responsiveness
probe `is_container_running` evaluated on the resulting state is `True`:
the operation never reports success while the sandbox is unresponsive. -/
theorem C1_setup_success_implies_responsive (cfg : Cfg) (copyMode rebuild : Bool)
    (w : World) (h : (setupEnvironmentC cfg copyMode rebuild w).1 = true) :
    isContainerRunningP cfg (setupEnvironmentC cfg copyMode rebuild w).2 = true :=
  setupEnvironmentC_true cfg copyMode rebuild w h

theorem C1_setup_success_implies_responsive_witness :
    (setupEnvironmentC cfgGood false false worldReady).1 = true ∧
    isContainerRunningP cfgGood (setupEnvironmentC cfgGood false false worldReady).2 = true :=
  ⟨by decide, C1_setup_success_implies_responsive cfgGood false false worldReady (by decide)⟩

/-- C3: with an existing container, `create_container` reuses it exactly
when its recorded `{{.Config.User}}` mapping equals the current `uid:gid`;
on any mismatch it invokes `docker rm -f` then `docker create` (visible as
the appended trace events), and any container present afterwards is a fresh
one recording the current mapping. -/
theorem C3_create_destroys_on_user_mismatch (cfg : Cfg) (w : World) (c : Container)
    (hd : cfg.daemonUp = true) (hc : w.cont = some c) :
    (c.user ≠ userStr cfg →
      (createContainerC cfg w).2.trace = w.trace ++ [Ev.removeEv, Ev.createEv] ∧
      ∀ c', (createContainerC cfg w).2.cont = some c' →
        c'.id = w.nextId ∧ c'.user = userStr cfg) ∧
    (c.user = userStr cfg → createContainerC cfg w = (true, w)) := by
  have hex : containerExistsP cfg w = true := by simp [containerExistsP, hd, hc]
  have hiu : inspectUserP cfg w = c.user := by simp [inspectUserP, hc, hd]
  constructor
  · intro hne
    have hbeq : (inspectUserP cfg w == userStr cfg) = false := by
      rw [hiu]
      exact beq_eq_false_iff_ne.mpr hne
    have hcc : createContainerC cfg w = (true, dockerCreate cfg (dockerRmForce cfg w)) := by
      unfold createContainerC
      rw [hex, hbeq]
      simp
    rw [hcc]
    constructor
    · unfold dockerCreate dockerRmForce evLog
      rw [hd]
      split <;> simp [apply_ite World.trace]
    · intro c' hc'
      unfold dockerCreate dockerRmForce evLog at hc'
      rw [hd] at hc'
      simp only [if_true] at hc'
      split at hc'
      · have : c' = ⟨w.nextId, userStr cfg, false, false⟩ := by
          simpa using hc'.symm
        rw [this]
        exact ⟨rfl, rfl⟩
      · simp at hc'
  · intro heq
    have hbeq : (inspectUserP cfg w == userStr cfg) = true := by
      rw [hiu, heq]
      exact beq_self_eq_true _
    unfold createContainerC
    rw [hex, hbeq]
    simp

theorem C3_create_destroys_on_user_mismatch_witness :
    (let cfg : Cfg := cfgGood
     let w : World :=
       ⟨true, some ⟨0, "0:0", false, false⟩, false, [], [], 1, 0, 0, 0, 0, [], [], []⟩
     (createContainerC cfg w).2.trace = [Ev.removeEv, Ev.createEv] ∧
       ∀ c', (createContainerC cfg w).2.cont = some c' →
         c'.id = 1 ∧ c'.user = userStr cfg) := by
  have h := (C3_create_destroys_on_user_mismatch cfgGood
    ⟨true, some ⟨0, "0:0", false, false⟩, false, [], [], 1, 0, 0, 0, 0, [], [], []⟩
    ⟨0, "0:0", false, false⟩ (by decide) rfl).1 (by decide)
  exact h

/-! ## Counting self-heal (recreate) attempts -/

/-- Number of `restart_container` invocations recorded in the trace. -/
def crt (w : World) : Nat := w.trace.count Ev.restartEv

theorem crt_evLog (w : World) (e : Ev) :
    crt (evLog w e) = crt w + (if e = Ev.restartEv then 1 else 0) := by
  simp [crt, evLog, List.count_append, List.count_singleton']

theorem crt_dockerRmForce (cfg : Cfg) (w : World) :
    crt (dockerRmForce cfg w) = crt w := by
  simp only [dockerRmForce]
  split <;> simp [crt, evLog, List.count_append, List.count_singleton']

theorem crt_dockerCreate (cfg : Cfg) (w : World) :
    crt (dockerCreate cfg w) = crt w := by
  simp only [dockerCreate]
  split <;> simp [crt, evLog, List.count_append, List.count_singleton']

theorem crt_dockerStart (cfg : Cfg) (w : World) :
    crt (dockerStart cfg w) = crt w := by
  simp only [dockerStart, evLog]
  cases hco : w.cont <;>
    simp [hco, crt, List.count_append, List.count_singleton'] <;>
    split <;>
    simp [crt, List.count_append, List.count_singleton']

theorem crt_dockerStop (cfg : Cfg) (w : World) :
    crt (dockerStop cfg w) = crt w := by
  simp only [dockerStop, evLog]
  cases hco : w.cont <;>
    simp [hco, crt, List.count_append, List.count_singleton'] <;>
    split <;>
    simp [crt, List.count_append, List.count_singleton']

theorem crt_dockerBuild (cfg : Cfg) (w : World) :
    crt (dockerBuild cfg w) = crt w := by
  simp only [dockerBuild]
  split <;> simp [crt, evLog, List.count_append, List.count_singleton']

theorem crt_dockerRmi (cfg : Cfg) (w : World) :
    crt (dockerRmi cfg w) = crt w := by
  simp only [dockerRmi]
  split <;> simp [crt, evLog, List.count_append, List.count_singleton']

theorem crt_createContainerC (cfg : Cfg) (w : World) :
    crt (createContainerC cfg w).2 = crt w := by
  unfold createContainerC
  split
  · split
    · rfl
    · simp [crt_dockerCreate, crt_dockerRmForce]
  · simp [crt_dockerCreate]

theorem crt_restartPre (cfg : Cfg) (w : World) :
    crt (restartPre cfg w) = crt w + 1 := by
  unfold restartPre
  split <;> simp [crt_dockerRmForce, crt_evLog]

/-- The self-heal adds exactly one recreate attempt to the trace. -/
theorem crt_restartContainerC (cfg : Cfg) (w : World) :
    crt (restartContainerC cfg w).2 = crt w + 1 := by
  unfold restartContainerC
  split
  · simp [crt_dockerStart, crt_createContainerC, crt_restartPre]
  · simp [crt_createContainerC, crt_restartPre]

theorem crt_startCreateStep (cfg : Cfg) (w : World) :
    crt (startCreateStep cfg w).2 = crt w := by
  unfold startCreateStep
  split
  · exact crt_createContainerC cfg w
  · rfl

/-- `start_container` performs at most one recreate attempt. -/
theorem crt_startContainerC (cfg : Cfg) (w : World) :
    crt (startContainerC cfg w).2 ≤ crt w + 1 := by
  unfold startContainerC
  split
  · exact Nat.le_succ_of_le (Nat.le_refl _)
  · split
    · rw [crt_startCreateStep]
      exact Nat.le_succ_of_le (Nat.le_refl _)
    · split
      · rw [crt_restartContainerC, crt_dockerStart, crt_startCreateStep]
      · simp [crt_dockerStart, crt_startCreateStep]

theorem crt_stopContainerC (cfg : Cfg) (w : World) :
    crt (stopContainerC cfg w).2 = crt w := by
  unfold stopContainerC
  split
  · rfl
  · exact crt_dockerStop cfg w

theorem crt_removeStopStep (cfg : Cfg) (w : World) :
    crt (removeStopStep cfg w) = crt w := by
  unfold removeStopStep
  split
  · exact crt_stopContainerC cfg w
  · rfl

theorem crt_removeContainerC (cfg : Cfg) (w : World) :
    crt (removeContainerC cfg w).2 = crt w := by
  unfold removeContainerC
  split
  · simp [crt_dockerRmForce, crt_removeStopStep]
  · exact crt_removeStopStep cfg w

theorem crt_rebuildContTeardown (cfg : Cfg) (w : World) :
    crt (rebuildContTeardown cfg w) = crt w := by
  unfold rebuildContTeardown
  split
  · rw [crt_removeContainerC]
    split
    · exact crt_stopContainerC cfg w
    · rfl
  · rfl

theorem crt_rebuildTeardown (cfg : Cfg) (w : World) :
    crt (rebuildTeardown cfg w) = crt w := by
  unfold rebuildTeardown
  split
  · rw [crt_dockerRmi, crt_rebuildContTeardown]
  · exact crt_rebuildContTeardown cfg w

theorem crt_setupPre (cfg : Cfg) (cm rb : Bool) (w : World) :
    crt (setupPre cfg cm rb w) = crt w := by
  unfold setupPre
  split
  · rw [crt_rebuildTeardown]; rfl
  · rfl

theorem crt_setupBuildStep (cfg : Cfg) (w : World) :
    crt (setupBuildStep cfg w).2 = crt w := by
  unfold setupBuildStep buildImageC
  split
  · exact crt_dockerBuild cfg w
  · rfl

/-! ## Probe falseness through the lifecycle -/

/-- The responsiveness probe only reads the container component. -/
theorem probe_cont_only (cfg : Cfg) (w w' : World) (h : w'.cont = w.cont) :
    isContainerRunningP cfg w' = isContainerRunningP cfg w := by
  unfold isContainerRunningP
  rw [h]

theorem probe_dockerRmForce_false (cfg : Cfg) (w : World) :
    isContainerRunningP cfg (dockerRmForce cfg w) = false := by
  unfold dockerRmForce
  split
  · rfl
  · rename_i hnd
    have hd : cfg.daemonUp = false := by
      cases hv : cfg.daemonUp
      · rfl
      · exact absurd hv hnd
    unfold isContainerRunningP evLog
    cases w.cont <;> simp [hd]

theorem probe_dockerStop_false (cfg : Cfg) (w : World) :
    isContainerRunningP cfg (dockerStop cfg w) = false := by
  unfold dockerStop
  by_cases hd : cfg.daemonUp = true
  · cases hco : w.cont <;> simp [hco, isContainerRunningP, evLog, hd]
  · have hd' : cfg.daemonUp = false := by
      cases hv : cfg.daemonUp
      · rfl
      · exact absurd hv hd
    cases hco : w.cont <;> simp [hco, isContainerRunningP, evLog, hd']

/-- With a start oracle that never yields a responsive container, the probe
is false after any `docker start`. -/
theorem probe_dockerStart_false (cfg : Cfg) (w : World)
    (H2 : ∀ n, (cfg.startFun n).2 = false) :
    isContainerRunningP cfg (dockerStart cfg w) = false := by
  unfold dockerStart
  by_cases hd : cfg.daemonUp = true
  · cases hco : w.cont <;> simp [hco, isContainerRunningP, evLog, hd, H2]
  · have hd' : cfg.daemonUp = false := by
      cases hv : cfg.daemonUp
      · rfl
      · exact absurd hv hd
    cases hco : w.cont <;> simp [hco, isContainerRunningP, evLog, hd']

theorem restartContainerC_false (cfg : Cfg) (w : World)
    (H2 : ∀ n, (cfg.startFun n).2 = false) :
    (restartContainerC cfg w).1 = false := by
  unfold restartContainerC
  simp [createContainerC_fst, probe_dockerStart_false _ _ H2]

theorem startContainerC_false (cfg : Cfg) (w : World)
    (H1 : isContainerRunningP cfg w = false)
    (H2 : ∀ n, (cfg.startFun n).2 = false) :
    (startContainerC cfg w).1 = false := by
  unfold startContainerC
  simp [H1, startCreateStep_fst, probe_dockerStart_false _ _ H2,
    restartContainerC_false _ _ H2]

theorem probe_stopContainerC_false (cfg : Cfg) (w : World)
    (H1 : isContainerRunningP cfg w = false) :
    isContainerRunningP cfg (stopContainerC cfg w).2 = false := by
  unfold stopContainerC
  split
  · exact H1
  · exact probe_dockerStop_false cfg w

theorem probe_removeStopStep_false (cfg : Cfg) (w : World)
    (H1 : isContainerRunningP cfg w = false) :
    isContainerRunningP cfg (removeStopStep cfg w) = false := by
  unfold removeStopStep
  split
  · exact probe_stopContainerC_false cfg w H1
  · exact H1

theorem probe_removeContainerC_false (cfg : Cfg) (w : World)
    (H1 : isContainerRunningP cfg w = false) :
    isContainerRunningP cfg (removeContainerC cfg w).2 = false := by
  unfold removeContainerC
  split
  · exact probe_dockerRmForce_false cfg _
  · exact probe_removeStopStep_false cfg w H1

theorem probe_dockerRmi_eq (cfg : Cfg) (w : World) :
    isContainerRunningP cfg (dockerRmi cfg w) = isContainerRunningP cfg w := by
  simp only [dockerRmi]
  split
  · exact probe_cont_only cfg _ w rfl
  · exact probe_cont_only cfg _ w rfl

theorem probe_rebuildContTeardown_false (cfg : Cfg) (w : World)
    (H1 : isContainerRunningP cfg w = false) :
    isContainerRunningP cfg (rebuildContTeardown cfg w) = false := by
  unfold rebuildContTeardown
  split
  · apply probe_removeContainerC_false
    split
    · exact probe_stopContainerC_false cfg w H1
    · exact H1
  · exact H1

theorem probe_rebuildTeardown_false (cfg : Cfg) (w : World)
    (H1 : isContainerRunningP cfg w = false) :
    isContainerRunningP cfg (rebuildTeardown cfg w) = false := by
  unfold rebuildTeardown
  split
  · rw [probe_dockerRmi_eq]
    exact probe_rebuildContTeardown_false cfg w H1
  · exact probe_rebuildContTeardown_false cfg w H1

theorem probe_setupPre_false (cfg : Cfg) (cm rb : Bool) (w : World)
    (H1 : isContainerRunningP cfg w = false) :
    isContainerRunningP cfg (setupPre cfg cm rb w) = false := by
  have hcm : isContainerRunningP cfg {w with copyMode := cm} = isContainerRunningP cfg w :=
    probe_cont_only cfg _ w rfl
  unfold setupPre
  split
  · exact probe_rebuildTeardown_false cfg _ (hcm.trans H1)
  · exact hcm.trans H1

theorem probe_dockerBuild_eq (cfg : Cfg) (w : World) :
    isContainerRunningP cfg (dockerBuild cfg w) = isContainerRunningP cfg w := by
  simp only [dockerBuild]
  split
  · exact probe_cont_only cfg _ w rfl
  · exact probe_cont_only cfg _ w rfl

theorem probe_setupBuildStep_false (cfg : Cfg) (w : World)
    (H1 : isContainerRunningP cfg w = false) :
    isContainerRunningP cfg (setupBuildStep cfg w).2 = false := by
  unfold setupBuildStep buildImageC
  split
  · exact (probe_dockerBuild_eq cfg w).trans H1
  · exact H1

/-- C7: against a sandbox whose responsiveness probe fails initially and
after every (re)start, `setup_environment` reports the fatal failure
(returns `False`) and the trace gains at most one `restart_container`
self-heal attempt: no second recreate, no retry loop. -/
theorem C7_single_self_heal_then_fatal (cfg : Cfg) (copyMode rebuild : Bool) (w : World)
    (H1 : isContainerRunningP cfg w = false)
    (H2 : ∀ n, (cfg.startFun n).2 = false) :
    (setupEnvironmentC cfg copyMode rebuild w).1 = false ∧
    crt (setupEnvironmentC cfg copyMode rebuild w).2 ≤ crt w + 1 := by
  by_cases hA : isDockerAvailableP cfg = true
  · have hp : isContainerRunningP cfg
        (setupBuildStep cfg (setupPre cfg copyMode rebuild w)).2 = false :=
      probe_setupBuildStep_false cfg _ (probe_setupPre_false cfg _ _ _ H1)
    have hs := startContainerC_false cfg _ hp H2
    have hcrt := crt_startContainerC cfg (setupBuildStep cfg (setupPre cfg copyMode rebuild w)).2
    rw [crt_setupBuildStep, crt_setupPre] at hcrt
    constructor
    · simp [setupEnvironmentC, hA, setupBuildStep_fst, hs]
    · simp only [setupEnvironmentC, hA, Bool.not_true, Bool.false_eq_true, if_false,
        setupBuildStep_fst, hs, Bool.not_false, if_true]
      exact hcrt
  · have hA' : isDockerAvailableP cfg = false := by
      cases hv : isDockerAvailableP cfg
      · rfl
      · exact absurd hv hA
    constructor
    · simp [setupEnvironmentC, hA']
    · simp [setupEnvironmentC, hA']

/-- Oracle whose `docker start` always yields a running but unresponsive
container. -/
def cfgWedged : Cfg :=
  ⟨true, true, 1000, 1000, fun _ => (true, false), fun _ => true, fun _ => true,
   fun _ => 0, true⟩

/-- A world whose container is listed as running but fails the probe. -/
def worldWedged : World :=
  ⟨true, some ⟨0, "1000:1000", true, false⟩, false, [], [], 1, 0, 0, 0, 0, [], [], []⟩

theorem C7_single_self_heal_then_fatal_witness :
    isContainerRunningP cfgWedged worldWedged = false ∧
    (setupEnvironmentC cfgWedged false false worldWedged).1 = false ∧
    crt (setupEnvironmentC cfgWedged false false worldWedged).2 ≤ crt worldWedged + 1 :=
  ⟨by decide,
   C7_single_self_heal_then_fatal cfgWedged false false worldWedged (by decide)
     (fun _ => rfl)⟩

/-- The main branch of `sync_from_container` in equation form. -/
theorem syncFromContainerC_main (cfg : Cfg) (q : Bool) (w : World)
    (hcm : w.copyMode = true) (hex : containerExistsP cfg w = true) :
    syncFromContainerC cfg q w =
      (true, {evLog w (Ev.pull q) with
        hostFiles := (pullRun w.containerFiles w.hostFiles).host,
        newFileNotices := w.newFileNotices ++
          (if q then [] else (pullRun w.containerFiles w.hostFiles).notices),
        copiedFiles := w.copiedFiles ++ (pullRun w.containerFiles w.hostFiles).copied}) := by
  simp [syncFromContainerC, hcm, hex]

/-- C2: two successive pulls with an unchanged container leave every host
file's content unchanged and print no "new file" notice on the second run
(`newFileNotices` gains nothing). -/
theorem C2_pull_twice_idempotent (cfg : Cfg) (w : World) :
    (∀ p, fsGet (syncFromContainerC cfg false
            (syncFromContainerC cfg false w).2).2.hostFiles p
        = fsGet (syncFromContainerC cfg false w).2.hostFiles p) ∧
    (syncFromContainerC cfg false (syncFromContainerC cfg false w).2).2.newFileNotices
      = (syncFromContainerC cfg false w).2.newFileNotices := by
  by_cases hcm : w.copyMode = true
  · by_cases hex : containerExistsP cfg w = true
    · have e1 := syncFromContainerC_main cfg false w hcm hex
      have hcm1 : ((syncFromContainerC cfg false w).2).copyMode = true := by
        rw [e1]; exact hcm
      have hex1 : containerExistsP cfg (syncFromContainerC cfg false w).2 = true := by
        rw [e1]; exact hex
      have e2 := syncFromContainerC_main cfg false (syncFromContainerC cfg false w).2 hcm1 hex1
      constructor
      · intro p
        rw [e2, e1]
        simp only [evLog]
        exact (pullRun_idem w.containerFiles w.hostFiles).1 p
      · rw [e2, e1]
        simp only [evLog]
        simp [(pullRun_idem w.containerFiles w.hostFiles).2]
    · have hex' : containerExistsP cfg w = false := by
        cases hv : containerExistsP cfg w
        · rfl
        · exact absurd hv hex
      have h1 : syncFromContainerC cfg false w = (false, w) := by
        simp [syncFromContainerC, hcm, hex']
      rw [h1]
      rw [h1]
      exact ⟨fun p => rfl, rfl⟩
  · have hcm' : w.copyMode = false := by
      cases hv : w.copyMode
      · rfl
      · exact absurd hv hcm
    have h1 : syncFromContainerC cfg false w = (true, w) := by
      simp [syncFromContainerC, hcm']
    rw [h1]
    rw [h1]
    exact ⟨fun p => rfl, rfl⟩

theorem C2_pull_twice_idempotent_witness :
    (fsGet (syncFromContainerC cfgGood false
        (syncFromContainerC cfgGood false
          ⟨true, some ⟨0, "1000:1000", true, true⟩, true,
           [], [("/workspace/out.txt", "data")], 1, 0, 0, 0, 0, [], [], []⟩).2).2.hostFiles
        "out.txt"
      = fsGet (syncFromContainerC cfgGood false
          ⟨true, some ⟨0, "1000:1000", true, true⟩, true,
           [], [("/workspace/out.txt", "data")], 1, 0, 0, 0, 0, [], [], []⟩).2.hostFiles
        "out.txt") ∧
    (syncFromContainerC cfgGood false (syncFromContainerC cfgGood false
        ⟨true, some ⟨0, "1000:1000", true, true⟩, true,
         [], [("/workspace/out.txt", "data")], 1, 0, 0, 0, 0, [], [], []⟩).2).2.newFileNotices
      = (syncFromContainerC cfgGood false
        ⟨true, some ⟨0, "1000:1000", true, true⟩, true,
         [], [("/workspace/out.txt", "data")], 1, 0, 0, 0, 0, [], [], []⟩).2.newFileNotices :=
  ⟨(C2_pull_twice_idempotent cfgGood _).1 "out.txt",
   (C2_pull_twice_idempotent cfgGood _).2⟩

/-- C4: a container path containing a deny-list substring is never copied
to the host by `sync_from_container`, regardless of its extension. -/
theorem C4_denylisted_never_copied (cfg : Cfg) (quiet : Bool) (w : World) (p : String)
    (hd : denyHit p = true) (hp : p ∉ w.copiedFiles) :
    p ∉ (syncFromContainerC cfg quiet w).2.copiedFiles := by
  unfold syncFromContainerC
  split
  · exact hp
  · split
    · exact hp
    · intro hmem
      simp only at hmem
      rcases List.mem_append.mp hmem with hmem | hmem
      · exact hp hmem
      · exact pullRun_deny w.containerFiles w.hostFiles p hd hmem

/-! ## String facts needed for the dispatch command -/

theorem strExt {a b : String} (h : a.data = b.data) : a = b := by
  cases a with
  | mk d1 =>
    cases b with
    | mk d2 => exact congrArg String.mk h

theorem strData_append (a b : String) : (a ++ b).data = a.data ++ b.data := by
  cases a
  cases b
  rfl

theorem strAssoc (a b c : String) : (a ++ b) ++ c = a ++ (b ++ c) := by
  apply strExt
  simp [strData_append, List.append_assoc]

theorem listPre_append (p s : List Char) : listPre p (p ++ s) = true := by
  induction p with
  | nil => rfl
  | cons a t ih => simp [listPre, ih]

/-- A script path directly under the project root resolves to its relative
path. -/
theorem relativeTo_append (root rel : String) :
    relativeTo root ((root ++ "/") ++ rel) = rel := by
  unfold relativeTo
  have h1 : strStartsWith (root ++ "/") ((root ++ "/") ++ rel) = true := by
    unfold strStartsWith
    rw [strData_append]
    exact listPre_append _ _
  rw [h1]
  simp only [if_true]
  unfold dropChars
  apply strExt
  have h2 : ((root ++ "/") ++ rel).data = (root.data ++ ['/']) ++ rel.data := by
    rw [strData_append, strData_append]
  have h4 : ∀ (l r : List Char) (c : Char),
      List.drop (l.length + 1) (l ++ c :: r) = r := by
    intro l r c
    calc List.drop (l.length + 1) (l ++ c :: r)
        = List.drop ((l ++ [c]).length) ((l ++ [c]) ++ r) := by simp
      _ = r := List.drop_left _ _
  show ((root ++ "/") ++ rel).data.drop (root.data.length + 1) = rel.data
  rw [h2, List.append_assoc]
  exact h4 root.data rel.data '/'

theorem quotePart_nospace (s : String) (h : hasSpaceChar s = false) :
    quotePart s = s := by
  unfold quotePart
  rw [h]
  rfl

/-- The command `run_python_script` builds for a root-relative script and
the args `["--functions", "basic"]`. -/
theorem buildCmd_functions_basic (rel : String) (hsp : hasSpaceChar rel = false) :
    buildCmd ((projectRoot ++ "/") ++ rel) ["--functions", "basic"]
      = "python " ++ (rel ++ " --functions basic") := by
  unfold buildCmd
  rw [relativeTo_append]
  show joinSpace
      [quotePart "python", quotePart rel, quotePart "--functions", quotePart "basic"]
    = _
  rw [quotePart_nospace rel hsp,
      show quotePart "python" = "python" from rfl,
      show quotePart "--functions" = "--functions" from rfl,
      show quotePart "basic" = "basic" from rfl]
  show "python" ++ " " ++ (rel ++ " " ++ ("--functions" ++ " " ++ "basic")) = _
  rw [strAssoc rel " " ("--functions" ++ " " ++ "basic")]
  rw [show (" " ++ ("--functions" ++ " " ++ "basic")) = " --functions basic" by decide]
  rw [show ("python" ++ " ") = "python " by decide]

/-! ## Ready-sandbox equations for the dispatcher -/

theorem syncToContainerC_main (cfg : Cfg) (w : World)
    (hcm : w.copyMode = true) (hex : containerExistsP cfg w = true) :
    syncToContainerC cfg w =
      (true, {evLog w Ev.push with
        containerFiles := pushMerge w.hostFiles w.containerFiles}) := by
  simp [syncToContainerC, hcm, hex]

theorem startContainerC_ready (cfg : Cfg) (w : World)
    (hp : isContainerRunningP cfg w = true) :
    startContainerC cfg w = (true, w) := by
  simp [startContainerC, hp]

theorem dockerExec_ready (cfg : Cfg) (cmd : String) (inter : Bool) (w : World)
    (c : Container) (hc : w.cont = some c) (hd : cfg.daemonUp = true)
    (hr : c.running = true) (hh : c.healthy = true) :
    dockerExec cfg cmd inter w =
      (⟨cfg.execRcFun w.execIdx, ""⟩,
       {evLog w (Ev.execCmd cmd inter) with execIdx := w.execIdx + 1}) := by
  simp [dockerExec, evLog, hc, hd, hr, hh]

theorem runCommandInContainerC_ready (cfg : Cfg) (cmd : String) (inter : Bool)
    (w : World) (hp : isContainerRunningP cfg w = true) :
    runCommandInContainerC cfg cmd inter w =
      (some (dockerExec cfg cmd inter w).1, (dockerExec cfg cmd inter w).2) := by
  rw [runCommandInContainerC, startContainerC_ready cfg w hp]
  simp

/-- C6: dispatching a root-relative script non-interactively in copy mode
against a ready sandbox performs exactly one push, then one in-container
execution of `python <relative path> --functions basic`, then one non-quiet
pull (in that order), and reports the script's own exit code (the value the
exec oracle returns for this run). -/
theorem C6_copy_mode_dispatch (cfg : Cfg) (w : World) (c : Container) (rel : String)
    (hd : cfg.daemonUp = true) (hcm : w.copyMode = true) (hc : w.cont = some c)
    (hr : c.running = true) (hh : c.healthy = true) (hsp : hasSpaceChar rel = false) :
    (runPythonScriptC cfg ((projectRoot ++ "/") ++ rel) ["--functions", "basic"] w).1
      = some ⟨cfg.execRcFun w.execIdx, ""⟩ ∧
    (runPythonScriptC cfg ((projectRoot ++ "/") ++ rel) ["--functions", "basic"] w).2.trace
      = w.trace ++ [Ev.push,
          Ev.execCmd ("python " ++ (rel ++ " --functions basic")) false,
          Ev.pull false] := by
  have hex : containerExistsP cfg w = true := by simp [containerExistsP, hd, hc]
  have hpw : isContainerRunningP cfg w = true := by simp [isContainerRunningP, hc, hd, hr, hh]
  have hpush := syncToContainerC_main cfg w hcm hex
  have hps : scriptPushStep cfg w = syncToContainerC cfg w := by
    simp [scriptPushStep, hcm]
  have hpushT : (syncToContainerC cfg w).1 = true := by
    rw [hpush]
  have hinter : isInterArgs ["--functions", "basic"] = false := by decide
  have hp1 : isContainerRunningP cfg (syncToContainerC cfg w).2 = true := by
    rw [hpush]
    exact (probe_cont_only cfg _ w rfl).trans hpw
  have hc1 : (syncToContainerC cfg w).2.cont = some c := by
    rw [hpush]
    exact hc
  have hexec := dockerExec_ready cfg
    (buildCmd ((projectRoot ++ "/") ++ rel) ["--functions", "basic"]) false
    (syncToContainerC cfg w).2 c hc1 hd hr hh
  have hrun := runCommandInContainerC_ready cfg
    (buildCmd ((projectRoot ++ "/") ++ rel) ["--functions", "basic"]) false
    (syncToContainerC cfg w).2 hp1
  have hmaster : runPythonScriptC cfg ((projectRoot ++ "/") ++ rel)
      ["--functions", "basic"] w =
      ((runCommandInContainerC cfg
          (buildCmd ((projectRoot ++ "/") ++ rel) ["--functions", "basic"]) false
          (syncToContainerC cfg w).2).1,
       (syncFromContainerC cfg false
         (runCommandInContainerC cfg
           (buildCmd ((projectRoot ++ "/") ++ rel) ["--functions", "basic"]) false
           (syncToContainerC cfg w).2).2).2) := by
    unfold runPythonScriptC scriptDispatchStep
    simp [hps, hpushT, hcm, hinter]
  have hW2cm : ((runCommandInContainerC cfg
      (buildCmd ((projectRoot ++ "/") ++ rel) ["--functions", "basic"]) false
      (syncToContainerC cfg w).2).2).copyMode = true := by
    rw [hrun, hexec]
    show (syncToContainerC cfg w).2.copyMode = true
    rw [hpush]
    exact hcm
  have hW2ex : containerExistsP cfg ((runCommandInContainerC cfg
      (buildCmd ((projectRoot ++ "/") ++ rel) ["--functions", "basic"]) false
      (syncToContainerC cfg w).2).2) = true := by
    rw [hrun, hexec]
    show containerExistsP cfg _ = true
    unfold containerExistsP
    show (cfg.daemonUp && (syncToContainerC cfg w).2.cont.isSome) = true
    rw [hc1, hd]
    rfl
  have hsync2 := syncFromContainerC_main cfg false _ hW2cm hW2ex
  constructor
  · rw [hmaster]
    show (runCommandInContainerC cfg
      (buildCmd ((projectRoot ++ "/") ++ rel) ["--functions", "basic"]) false
      (syncToContainerC cfg w).2).1 = _
    rw [hrun, hexec]
    show some (⟨cfg.execRcFun (syncToContainerC cfg w).2.execIdx, ""⟩ : DockerResult) = _
    rw [hpush]
    rfl
  · rw [hmaster]
    show (syncFromContainerC cfg false _).2.trace = _
    rw [hsync2]
    show ((runCommandInContainerC cfg
        (buildCmd ((projectRoot ++ "/") ++ rel) ["--functions", "basic"]) false
        (syncToContainerC cfg w).2).2.trace ++ [Ev.pull false]) = _
    rw [hrun]
    show ((dockerExec cfg
        (buildCmd ((projectRoot ++ "/") ++ rel) ["--functions", "basic"]) false
        (syncToContainerC cfg w).2).2.trace ++ [Ev.pull false]) = _
    rw [hexec]
    show (((syncToContainerC cfg w).2.trace ++
        [Ev.execCmd (buildCmd ((projectRoot ++ "/") ++ rel)
          ["--functions", "basic"]) false]) ++ [Ev.pull false]) = _
    rw [hpush]
    show (((w.trace ++ [Ev.push]) ++
        [Ev.execCmd (buildCmd ((projectRoot ++ "/") ++ rel)
          ["--functions", "basic"]) false]) ++ [Ev.pull false]) = _
    rw [buildCmd_functions_basic rel hsp]
    simp [List.append_assoc]

/-- Oracle where docker behaves perfectly but a script exits with code 7. -/
def cfgRc7 : Cfg :=
  ⟨true, true, 1000, 1000, fun _ => (true, true), fun _ => true, fun _ => true,
   fun _ => 7, true⟩

/-- A ready copy-mode world. -/
def worldCopy : World :=
  ⟨true, some ⟨0, "1000:1000", true, true⟩, true, [], [], 1, 0, 0, 0, 0, [], [], []⟩

theorem C6_copy_mode_dispatch_witness :
    (runPythonScriptC cfgRc7 ((projectRoot ++ "/") ++ "python/learn_python.py")
        ["--functions", "basic"] worldCopy).1 = some ⟨7, ""⟩ ∧
    (runPythonScriptC cfgRc7 ((projectRoot ++ "/") ++ "python/learn_python.py")
        ["--functions", "basic"] worldCopy).2.trace
      = [Ev.push, Ev.execCmd "python python/learn_python.py --functions basic" false,
         Ev.pull false] := by
  have h := C6_copy_mode_dispatch cfgRc7 worldCopy ⟨0, "1000:1000", true, true⟩
    "python/learn_python.py" rfl rfl rfl rfl rfl (by decide)
  exact ⟨h.1, h.2.trans (by decide)⟩

/-- C8 counterexample: with the docker binary absent from the system, the
probe `is_docker_available` propagates the launch exception
(`FileNotFoundError` is not caught by `_run_docker_command`) instead of
returning `False`. -/
theorem C8_counterexample_probe_raises :
    isDockerAvailableE
      ⟨false, false, 0, 0, fun _ => (false, false), fun _ => false, fun _ => false,
       fun _ => 0, false⟩
      worldReady = .error () := rfl

/-- C8 (amended): once the docker binary itself launches, none of the four
probes ever raises — each returns its boolean verdict — and when the daemon
is unreachable every probe degrades to `false` rather than raising. -/
theorem C8_probes_degrade_when_launchable (cfg : Cfg) (w : World)
    (h : cfg.dockerInstalled = true) :
    (isDockerAvailableE cfg w = .ok (isDockerAvailableP cfg) ∧
     imageExistsE cfg w = .ok (imageExistsP cfg w) ∧
     containerExistsE cfg w = .ok (containerExistsP cfg w) ∧
     isContainerRunningE cfg w = .ok (isContainerRunningP cfg w)) ∧
    (cfg.daemonUp = false →
      isDockerAvailableP cfg = false ∧ imageExistsP cfg w = false ∧
      containerExistsP cfg w = false ∧ isContainerRunningP cfg w = false) := by
  constructor
  · simp [isDockerAvailableE, imageExistsE, containerExistsE, isContainerRunningE, h]
  · intro hd
    refine ⟨hd, ?_, ?_, ?_⟩
    · simp [imageExistsP, hd]
    · simp [containerExistsP, hd]
    · unfold isContainerRunningP
      cases w.cont <;> simp [hd]

theorem C8_probes_degrade_when_launchable_witness :
    isDockerAvailableE cfgGood worldReady = .ok true ∧
    isContainerRunningE cfgGood worldReady = .ok true := by
  have h := (C8_probes_degrade_when_launchable cfgGood worldReady rfl).1
  exact ⟨h.1, h.2.2.2⟩

/-- C10: once the underlying executable launches, `_run_docker_command`
always returns a non-`None` value carrying a return code (the completed
result or the caught `CalledProcessError`); a launch failure propagates as
an uncaught exception; consequently the `result is None` restart-and-retry
branch of `run_command_in_container` is unreachable — the function always
equals its retry-free form. -/
theorem C10_runner_never_none :
    (∀ o : SubprocOutcome, o ≠ SubprocOutcome.launchFailure →
      ∃ r : DockerResult, runDockerCommandM o = .ok (some r)) ∧
    runDockerCommandM SubprocOutcome.launchFailure = .error () ∧
    (∀ (cfg : Cfg) (cmd : String) (inter : Bool) (w : World),
      runCommandInContainerC cfg cmd inter w =
        (if !(startContainerC cfg w).1 then (none, (startContainerC cfg w).2)
         else (some (dockerExec cfg cmd inter (startContainerC cfg w).2).1,
               (dockerExec cfg cmd inter (startContainerC cfg w).2).2))) := by
  refine ⟨?_, rfl, ?_⟩
  · intro o ho
    cases o with
    | completed rc out => exact ⟨⟨rc, out⟩, rfl⟩
    | calledProcessError rc out => exact ⟨⟨rc, out⟩, rfl⟩
    | launchFailure => exact absurd rfl ho
  · intro cfg cmd inter w
    unfold runCommandInContainerC
    split
    · simp
    · simp

theorem C10_runner_never_none_witness :
    (∃ r : DockerResult, runDockerCommandM (SubprocOutcome.completed 0 "ok")
      = .ok (some r)) ∧
    runDockerCommandM SubprocOutcome.launchFailure = .error () :=
  ⟨C10_runner_never_none.1 (SubprocOutcome.completed 0 "ok") (by simp),
   C10_runner_never_none.2.1⟩

/-! ## Interleaving model of `run_interactive_with_sync` sessions

`run_interactive_with_sync` (lines 281-326) starts one daemon thread
running `sync_periodically` (lines 301-311: while flag: sleep 2; if flag:
quiet pull) and in its `finally` block clears the flag and runs the final
non-quiet pull — it never joins the thread.  A session is modelled as an
interleaving of the foreground program
`[spawn, cmdRun, clearFlag, finalSyncBegin, finalSyncEnd]` with a prefix of
a worker run (the daemon thread may be preempted or killed at any point),
where every worker flag read must agree with whether the clear has already
happened. -/

/-- Session events.  `spawn`, `cmdRun`, `clearFlag`, `finalSyncBegin`,
`finalSyncEnd` are foreground steps; `checkFlag`, `sleepEv`,
`bgSyncBegin`, `bgSyncEnd` are worker steps. -/
inductive SEv
  | spawn
  | cmdRun
  | clearFlag
  | finalSyncBegin
  | finalSyncEnd
  | checkFlag (v : Bool)
  | sleepEv
  | bgSyncBegin
  | bgSyncEnd
deriving DecidableEq

/-- A trace event tagged with its thread: `true` = foreground. -/
abbrev TEv := Bool × SEv

/-- The foreground program of one interactive copy-mode session. -/
def fgList : List SEv :=
  [SEv.spawn, SEv.cmdRun, SEv.clearFlag, SEv.finalSyncBegin, SEv.finalSyncEnd]

/-- Control state of the `sync_periodically` worker loop. -/
inductive WSt
  | outer     -- before the `while sync_active.is_set()` check
  | sleeping  -- outer check read true; next is the sleep
  | inner     -- after the sleep; before the inner `if sync_active.is_set()`
  | preSync   -- inner check read true; next the quiet pull starts
  | inSync    -- quiet pull in flight
  | halted    -- outer check read false; the thread exits
deriving DecidableEq

/-- One worker step (the loop body of `sync_periodically`). -/
def wstep : WSt → SEv → Option WSt
  | .outer, .checkFlag true => some .sleeping
  | .outer, .checkFlag false => some .halted
  | .sleeping, .sleepEv => some .inner
  | .inner, .checkFlag true => some .preSync
  | .inner, .checkFlag false => some .outer
  | .preSync, .bgSyncBegin => some .inSync
  | .inSync, .bgSyncEnd => some .outer
  | _, _ => none

/-- Validity scan of a merged session trace: the foreground events spell
out `fgList` in order; worker events only occur after the spawn and follow
the worker automaton; every worker flag read returns `true` exactly when
the foreground has not yet cleared the flag.  The worker may stop anywhere
(daemon thread), the foreground must complete. -/
def sessOk (fgRest : List SEv) (wst : WSt) (spawned cleared : Bool) :
    List TEv → Bool
  | [] => fgRest.isEmpty
  | (true, e) :: rest =>
    (match fgRest with
     | [] => false
     | f :: fr =>
       if f == e then
         sessOk fr wst (spawned || (e == SEv.spawn))
           (cleared || (e == SEv.clearFlag)) rest
       else false)
  | (false, e) :: rest =>
    if spawned = false then false
    else
      match e with
      | SEv.checkFlag v =>
        if v == !cleared then
          match wstep wst (SEv.checkFlag v) with
          | some wst2 => sessOk fgRest wst2 spawned cleared rest
          | none => false
        else false
      | _ =>
        match wstep wst e with
        | some wst2 => sessOk fgRest wst2 spawned cleared rest
        | none => false

/-- A valid complete session trace. -/
def validSession (t : List TEv) : Bool := sessOk fgList WSt.outer false false t

/-- Scan for a moment where a background pull and the final pull are both
in flight. -/
def overlapScan : Bool → Bool → List TEv → Bool
  | _, _, [] => false
  | inBg, inFinal, (tag, e) :: rest =>
    if tag && (e == SEv.finalSyncBegin) && inBg then true
    else if !tag && (e == SEv.bgSyncBegin) && inFinal then true
    else
      overlapScan
        (if !tag && (e == SEv.bgSyncBegin) then true
         else if !tag && (e == SEv.bgSyncEnd) then false else inBg)
        (if tag && (e == SEv.finalSyncBegin) then true
         else if tag && (e == SEv.finalSyncEnd) then false else inFinal)
        rest

/-- The final sync runs concurrently with a background sync pass somewhere
in the trace. -/
def hasOverlap (t : List TEv) : Bool := overlapScan false false t

/-- An admissible schedule in which the worker's quiet pull is still in
flight when the foreground's final pull starts: the worker passes its inner
flag check and begins a pull, the foreground command then ends, clears the
flag and starts the final pull before the worker's pull finishes. -/
def overlapTrace : List TEv :=
  [(true, SEv.spawn), (true, SEv.cmdRun),
   (false, SEv.checkFlag true), (false, SEv.sleepEv), (false, SEv.checkFlag true),
   (false, SEv.bgSyncBegin),
   (true, SEv.clearFlag), (true, SEv.finalSyncBegin),
   (false, SEv.bgSyncEnd),
   (true, SEv.finalSyncEnd)]

/-- C9 counterexample: because the worker is never joined, there is a valid
session schedule in which a background `sync_from_container` pass overlaps
the final end-of-session sync. -/
theorem C9_counterexample_overlap_possible :
    validSession overlapTrace = true ∧ hasOverlap overlapTrace = true := by
  decide

/-- The foreground projection of a valid scan is exactly the remaining
foreground program. -/
theorem sessOk_fgProj (t : List TEv) : ∀ (f : List SEv) (w : WSt) (sp cl : Bool),
    sessOk f w sp cl t = true → (t.filter (fun x => x.1)).map Prod.snd = f := by
  induction t with
  | nil =>
    intro f w sp cl h
    cases f with
    | nil => rfl
    | cons a l => simp [sessOk] at h
  | cons te rest ih =>
    intro f w sp cl h
    obtain ⟨tag, e⟩ := te
    cases tag
    · have hf : List.filter (fun x => x.1) ((false, e) :: rest)
          = List.filter (fun x => x.1) rest := by
        simp
      rw [hf]
      simp only [sessOk] at h
      split at h
      · exact Bool.noConfusion h
      · cases e <;> (repeat' split at h) <;>
          first
            | exact ih _ _ _ _ h
            | exact Bool.noConfusion h
    · cases f with
      | nil => simp [sessOk] at h
      | cons fh fr =>
        simp only [sessOk] at h
        split at h
        · rename_i hfe
          have hfe' : fh = e := by simpa using hfe
          subst hfe'
          have hf : List.filter (fun x => x.1) ((true, fh) :: rest)
              = (true, fh) :: List.filter (fun x => x.1) rest := by
            simp
          rw [hf, List.map_cons, ih _ _ _ _ h]
        · exact Bool.noConfusion h

/-- Once the flag has been cleared, no later worker flag check can read
`true`. -/
theorem sessOk_cleared_no_true_check (u : List TEv) :
    ∀ (f : List SEv) (w : WSt) (sp : Bool) (v : List TEv),
    sessOk f w sp true (u ++ (false, SEv.checkFlag true) :: v) = false := by
  induction u with
  | nil =>
    intro f w sp v
    simp only [List.nil_append, sessOk]
    split
    · rfl
    · rfl
  | cons te u' ih =>
    intro f w sp v
    obtain ⟨tag, e⟩ := te
    cases tag
    · simp only [List.cons_append, sessOk]
      split
      · rfl
      · cases e <;> (repeat' split) <;>
          first
            | exact ih _ _ _ _
            | rfl
    · cases f with
      | nil => simp only [List.cons_append, sessOk]
      | cons fh fr =>
        simp only [List.cons_append, sessOk]
        split
        · exact ih _ _ _ _
        · rfl

/-- A valid scan that passes the foreground's `clearFlag` continues as a
valid scan with the cleared flag set. -/
theorem sessOk_after_clear (u : List TEv) :
    ∀ (f : List SEv) (w : WSt) (sp cl : Bool) (v : List TEv),
    sessOk f w sp cl (u ++ (true, SEv.clearFlag) :: v) = true →
    ∃ (f2 : List SEv) (w2 : WSt) (sp2 : Bool), sessOk f2 w2 sp2 true v = true := by
  induction u with
  | nil =>
    intro f w sp cl v h
    cases f with
    | nil =>
      simp only [List.nil_append, sessOk] at h
      exact Bool.noConfusion h
    | cons fh fr =>
      simp only [List.nil_append, sessOk] at h
      split at h
      · simp only [beq_self_eq_true, Bool.or_true] at h
        exact ⟨fr, w, sp || (SEv.clearFlag == SEv.spawn), h⟩
      · exact Bool.noConfusion h
  | cons te u' ih =>
    intro f w sp cl v h
    obtain ⟨tag, e⟩ := te
    cases tag
    · simp only [List.cons_append, sessOk] at h
      split at h
      · exact Bool.noConfusion h
      · cases e <;> (repeat' split at h) <;>
          first
            | exact ih _ _ _ _ _ h
            | exact Bool.noConfusion h
    · cases f with
      | nil =>
        simp only [List.cons_append, sessOk] at h
        exact Bool.noConfusion h
      | cons fh fr =>
        simp only [List.cons_append, sessOk] at h
        split at h
        · exact ih _ _ _ _ _ h
        · exact Bool.noConfusion h

/-- C9 (amended): in every admissible schedule of an interactive copy-mode
session, the foreground performs exactly the program
spawn → run → clear flag → final sync (so one worker is spawned per session
and the stop flag is cleared before the final sync starts), and after the
clear no worker flag check ever reads the flag as set, so no new background
pass is initiated once the clear happened.  (The worker is not joined: a
pass already in flight may still overlap the final sync, as the
counterexample schedule shows.) -/
theorem C9_one_worker_and_clear_precedes_final_sync (t : List TEv)
    (h : validSession t = true) :
    ((t.filter (fun x => x.1)).map Prod.snd = fgList) ∧
    (∀ u v, t = u ++ (false, SEv.checkFlag true) :: v →
      (true, SEv.clearFlag) ∉ u) := by
  constructor
  · exact sessOk_fgProj t _ _ _ _ h
  · intro u v heq hmem
    obtain ⟨u1, u2, rfl⟩ := List.append_of_mem hmem
    rw [heq] at h
    rw [List.append_assoc, List.cons_append] at h
    obtain ⟨f2, w2, sp2, h2⟩ := sessOk_after_clear u1 _ _ _ _ _ h
    exact Bool.noConfusion
      ((sessOk_cleared_no_true_check u2 f2 w2 sp2 v).symm.trans h2)

/-- A session in which the worker never got scheduled. -/
def plainTrace : List TEv :=
  [(true, SEv.spawn), (true, SEv.cmdRun), (true, SEv.clearFlag),
   (true, SEv.finalSyncBegin), (true, SEv.finalSyncEnd)]

theorem C9_one_worker_and_clear_precedes_final_sync_witness :
    validSession plainTrace = true ∧
    (plainTrace.filter (fun x => x.1)).map Prod.snd = fgList :=
  ⟨by decide, (C9_one_worker_and_clear_precedes_final_sync plainTrace (by decide)).1⟩

/-- Oracle where the first in-container command exits with the "exit all
sessions" code 42 and every later one succeeds. -/
def cfgExit42 : Cfg :=
  ⟨true, true, 1000, 1000, fun _ => (true, true), fun _ => true, fun _ => true,
   fun n => if n == 0 then 42 else 0, true⟩

/-- Oracle where the first in-container command fails with an ordinary
exit code 1. -/
def cfgExit1 : Cfg :=
  ⟨true, true, 1000, 1000, fun _ => (true, true), fun _ => true, fun _ => true,
   fun n => if n == 0 then 1 else 0, true⟩

/-- C5 (evaluation of the code at the failing input): when the interactive
command for the first of two scheduled modules exits with code 42,
`run_in_managed_environment` collapses it to the same `False` it returns
for an ordinary exit code 1 — the code is not reported to the caller, let
alone unchanged — and `main`'s per-module loop still dispatches the second
module (2 dispatches) instead of short-circuiting. -/
theorem C5_exit42_collapsed_and_loop_continues :
    (runInManagedEnvironmentC cfgExit42 "basic" false true false true false false false
      worldReady).1 = false ∧
    (runInManagedEnvironmentC cfgExit1 "basic" false true false true false false false
      worldReady).1 = false ∧
    (mainRunLoopC cfgExit42 ["basic", "advanced"] false true false true false false false
      ["basic", "advanced"] worldReady).1 = 2 := by
  refine ⟨?_, ?_, ?_⟩ <;> decide

theorem C4_denylisted_never_copied_witness :
    denyHit "/workspace/.git/hook.py" = true ∧
    "/workspace/.git/hook.py" ∉ (syncFromContainerC cfgGood false
      ⟨true, some ⟨0, "1000:1000", true, true⟩, true,
       [], [("/workspace/.git/hook.py", "s")], 1, 0, 0, 0, 0, [], [], []⟩).2.copiedFiles :=
  ⟨by decide,
   C4_denylisted_never_copied cfgGood false
     ⟨true, some ⟨0, "1000:1000", true, true⟩, true,
      [], [("/workspace/.git/hook.py", "s")], 1, 0, 0, 0, 0, [], [], []⟩
     "/workspace/.git/hook.py" (by decide) (by decide)⟩

end Codeit
